import Mathlib

/-!
Shallow embedding of `src/ext/lingua_rs_rb/src/lib.rs`, the Ruby binding layer
over the external `lingua` language-detection engine.

Modelling conventions:
- Ruby exceptions crossing the magnus boundary are values of `RubyError`;
  `ruby.exception_arg_error()` becomes `RubyError.invalidArgument` and
  `ruby.exception_runtime_error()` becomes `RubyError.stateError`, matching the
  spec's error taxonomy.
- The `RefCell<Option<LanguageDetectorBuilder>>` slot of the builder wrapper is
  explicit state passing: each wrapper method returns its result together with
  the post-call wrapper state.
- `f64` arguments are modelled by `Rat`; the source only compares the value
  against the closed interval bounds 0.0 and 1.0, and on numeric (non-NaN)
  doubles that comparison coincides with the rational order.  (A NaN argument
  fails the source's range test exactly as any out-of-range rational does.)
- The external `lingua` engine is out of scope for the repository and is
  specified only at its interface boundary; its detector is modelled as a
  structure of behaviour functions, and its fixed vocabulary of language names
  and ISO codes as concrete lists.
-/

namespace LinguaRsRb

/-- Modelled from the spec: the external engine's fixed, closed vocabulary of
canonical language names ("a fixed closed set of supported natural languages",
spelling "treated as given" per the spec). -/
def languageNames : List String :=
  ["Afrikaans", "Albanian", "Amharic", "Arabic", "Armenian", "Azerbaijani",
   "Basque", "Belarusian", "Bengali", "Bokmal", "Bosnian", "Bulgarian",
   "Catalan", "Chinese", "Croatian", "Czech", "Danish", "Dutch", "English",
   "Esperanto", "Estonian", "Finnish", "French", "Ganda", "Georgian", "German",
   "Greek", "Gujarati", "Hebrew", "Hindi", "Hungarian", "Icelandic",
   "Indonesian", "Irish", "Italian", "Japanese", "Kazakh", "Korean", "Latin",
   "Latvian", "Lithuanian", "Macedonian", "Malay", "Maori", "Marathi",
   "Mongolian", "Nynorsk", "Persian", "Polish", "Portuguese", "Punjabi",
   "Romanian", "Russian", "Serbian", "Shona", "Slovak", "Slovene", "Somali",
   "Sotho", "Spanish", "Swahili", "Swedish", "Tagalog", "Tamil", "Telugu",
   "Thai", "Tsonga", "Tswana", "Turkish", "Ukrainian", "Urdu", "Vietnamese",
   "Welsh", "Xhosa", "Yoruba", "Zulu"]

/-- A canonical language value of the external engine (lingua's `Language`
enum), modelled by its canonical name string; values are only ever produced
through `Language.from_str`, which checks the vocabulary. -/
structure Language where
  name : String
deriving DecidableEq, Repr

/-- The engine's `Language::from_str`: exact-match lookup of a canonical
language name, `none` on an unknown identifier. -/
def Language.from_str (s : String) : Option Language :=
  if s ∈ languageNames then some ⟨s⟩ else none

/-- The engine's `Language::to_string`: the canonical name. -/
def Language.to_string (l : Language) : String :=
  l.name

/-- The engine's `Language::all()`, as the full vocabulary. -/
def Language.all : List Language :=
  languageNames.map (fun s => ⟨s⟩)

/-- Modelled from the spec: the external engine's fixed table of ISO 639-1
codes, each an alternate identifier for a supported language. -/
def iso6391Table : List (String × String) :=
  [("af", "Afrikaans"), ("sq", "Albanian"), ("am", "Amharic"), ("ar", "Arabic"),
   ("hy", "Armenian"), ("az", "Azerbaijani"), ("eu", "Basque"),
   ("be", "Belarusian"), ("bn", "Bengali"), ("nb", "Bokmal"), ("bs", "Bosnian"),
   ("bg", "Bulgarian"), ("ca", "Catalan"), ("zh", "Chinese"),
   ("hr", "Croatian"), ("cs", "Czech"), ("da", "Danish"), ("nl", "Dutch"),
   ("en", "English"), ("eo", "Esperanto"), ("et", "Estonian"),
   ("fi", "Finnish"), ("fr", "French"), ("lg", "Ganda"), ("ka", "Georgian"),
   ("de", "German"), ("el", "Greek"), ("gu", "Gujarati"), ("he", "Hebrew"),
   ("hi", "Hindi"), ("hu", "Hungarian"), ("is", "Icelandic"),
   ("id", "Indonesian"), ("ga", "Irish"), ("it", "Italian"), ("ja", "Japanese"),
   ("kk", "Kazakh"), ("ko", "Korean"), ("la", "Latin"), ("lv", "Latvian"),
   ("lt", "Lithuanian"), ("mk", "Macedonian"), ("ms", "Malay"), ("mi", "Maori"),
   ("mr", "Marathi"), ("mn", "Mongolian"), ("nn", "Nynorsk"), ("fa", "Persian"),
   ("pl", "Polish"), ("pt", "Portuguese"), ("pa", "Punjabi"),
   ("ro", "Romanian"), ("ru", "Russian"), ("sr", "Serbian"), ("sn", "Shona"),
   ("sk", "Slovak"), ("sl", "Slovene"), ("so", "Somali"), ("st", "Sotho"),
   ("es", "Spanish"), ("sw", "Swahili"), ("sv", "Swedish"), ("tl", "Tagalog"),
   ("ta", "Tamil"), ("te", "Telugu"), ("th", "Thai"), ("ts", "Tsonga"),
   ("tn", "Tswana"), ("tr", "Turkish"), ("uk", "Ukrainian"), ("ur", "Urdu"),
   ("vi", "Vietnamese"), ("cy", "Welsh"), ("xh", "Xhosa"), ("yo", "Yoruba"),
   ("zu", "Zulu")]

/-- Modelled from the spec: the external engine's fixed table of ISO 639-3
codes. -/
def iso6393Table : List (String × String) :=
  [("afr", "Afrikaans"), ("sqi", "Albanian"), ("amh", "Amharic"),
   ("ara", "Arabic"), ("hye", "Armenian"), ("aze", "Azerbaijani"),
   ("eus", "Basque"), ("bel", "Belarusian"), ("ben", "Bengali"),
   ("nob", "Bokmal"), ("bos", "Bosnian"), ("bul", "Bulgarian"),
   ("cat", "Catalan"), ("zho", "Chinese"), ("hrv", "Croatian"),
   ("ces", "Czech"), ("dan", "Danish"), ("nld", "Dutch"), ("eng", "English"),
   ("epo", "Esperanto"), ("est", "Estonian"), ("fin", "Finnish"),
   ("fra", "French"), ("lug", "Ganda"), ("kat", "Georgian"), ("deu", "German"),
   ("ell", "Greek"), ("guj", "Gujarati"), ("heb", "Hebrew"), ("hin", "Hindi"),
   ("hun", "Hungarian"), ("isl", "Icelandic"), ("ind", "Indonesian"),
   ("gle", "Irish"), ("ita", "Italian"), ("jpn", "Japanese"),
   ("kaz", "Kazakh"), ("kor", "Korean"), ("lat", "Latin"), ("lav", "Latvian"),
   ("lit", "Lithuanian"), ("mkd", "Macedonian"), ("msa", "Malay"),
   ("mri", "Maori"), ("mar", "Marathi"), ("mon", "Mongolian"),
   ("nno", "Nynorsk"), ("fas", "Persian"), ("pol", "Polish"),
   ("por", "Portuguese"), ("pan", "Punjabi"), ("ron", "Romanian"),
   ("rus", "Russian"), ("srp", "Serbian"), ("sna", "Shona"), ("slk", "Slovak"),
   ("slv", "Slovene"), ("som", "Somali"), ("sot", "Sotho"), ("spa", "Spanish"),
   ("swa", "Swahili"), ("swe", "Swedish"), ("tgl", "Tagalog"), ("tam", "Tamil"),
   ("tel", "Telugu"), ("tha", "Thai"), ("tso", "Tsonga"), ("tsn", "Tswana"),
   ("tur", "Turkish"), ("ukr", "Ukrainian"), ("urd", "Urdu"),
   ("vie", "Vietnamese"), ("cym", "Welsh"), ("xho", "Xhosa"),
   ("yor", "Yoruba"), ("zul", "Zulu")]

/-- The engine's `IsoCode639_1` identifier, modelled by its code string. -/
structure IsoCode639_1 where
  code : String
deriving DecidableEq, Repr

/-- The engine's `IsoCode639_1::from_str`: exact-match lookup. -/
def IsoCode639_1.from_str (s : String) : Option IsoCode639_1 :=
  if s ∈ iso6391Table.map Prod.fst then some ⟨s⟩ else none

/-- The engine's `IsoCode639_3` identifier, modelled by its code string. -/
structure IsoCode639_3 where
  code : String
deriving DecidableEq, Repr

/-- The engine's `IsoCode639_3::from_str`: exact-match lookup. -/
def IsoCode639_3.from_str (s : String) : Option IsoCode639_3 :=
  if s ∈ iso6393Table.map Prod.fst then some ⟨s⟩ else none

/-- A Ruby exception raised across the magnus boundary.  `invalidArgument` is
`ruby.exception_arg_error()` (the spec's `InvalidArgument`); `stateError` is
`ruby.exception_runtime_error()` (the spec's `StateError`). -/
inductive RubyError where
  | invalidArgument (message : String)
  | stateError (message : String)
deriving DecidableEq, Repr

/-- The configuration accumulated by lingua's `LanguageDetectorBuilder`: the
selected language set plus the three settings the binding exposes. -/
structure LanguageDetectorBuilder where
  languages : List Language
  minimumRelativeDistance : Rat := 0
  isEveryLanguageModelPreloaded : Bool := false
  isLowAccuracyModeEnabled : Bool := false
deriving DecidableEq, Repr

/-- Lingua's `LanguageDetectorBuilder::from_languages`. -/
def LanguageDetectorBuilder.from_languages
    (languages : List Language) : LanguageDetectorBuilder :=
  { languages := languages }

/-- Lingua's `LanguageDetectorBuilder::from_all_languages`. -/
def LanguageDetectorBuilder.from_all_languages : LanguageDetectorBuilder :=
  { languages := Language.all }

/-- Lingua's `LanguageDetectorBuilder::from_all_languages_without`: the full
vocabulary minus the given exclusion set. -/
def LanguageDetectorBuilder.from_all_languages_without
    (languages : List Language) : LanguageDetectorBuilder :=
  { languages := Language.all.filter (fun l => l ∉ languages) }

/-- Lingua's `LanguageDetectorBuilder::from_iso_codes_639_1`: the languages
denoted by the given codes. -/
def LanguageDetectorBuilder.from_iso_codes_639_1
    (iso_codes : List IsoCode639_1) : LanguageDetectorBuilder :=
  { languages :=
      iso_codes.filterMap (fun c => (iso6391Table.lookup c.code).map Language.mk) }

/-- Lingua's `LanguageDetectorBuilder::from_iso_codes_639_3`. -/
def LanguageDetectorBuilder.from_iso_codes_639_3
    (iso_codes : List IsoCode639_3) : LanguageDetectorBuilder :=
  { languages :=
      iso_codes.filterMap (fun c => (iso6393Table.lookup c.code).map Language.mk) }

/-- Lingua's builder setter `with_minimum_relative_distance` (the wrapper
validates the range before calling it, so it only ever sees values inside
the interval). -/
def LanguageDetectorBuilder.with_minimum_relative_distance
    (b : LanguageDetectorBuilder) (distance : Rat) : LanguageDetectorBuilder :=
  { b with minimumRelativeDistance := distance }

/-- Lingua's builder setter `with_preloaded_language_models`. -/
def LanguageDetectorBuilder.with_preloaded_language_models
    (b : LanguageDetectorBuilder) : LanguageDetectorBuilder :=
  { b with isEveryLanguageModelPreloaded := true }

/-- Lingua's builder setter `with_low_accuracy_mode`. -/
def LanguageDetectorBuilder.with_low_accuracy_mode
    (b : LanguageDetectorBuilder) : LanguageDetectorBuilder :=
  { b with isLowAccuracyModeEnabled := true }

/-- A span reported by multi-language detection: lingua's `DetectionResult`,
restricted to the three accessors the binding reads. -/
structure DetectionResult where
  language : Language
  start_index : Nat
  end_index : Nat
deriving DecidableEq, Repr

/-- Modelled from the spec: the external engine's built detector, specified
only at its interface boundary — a bundle of total behaviour functions for the
four single-input operations the binding delegates to. -/
structure LanguageDetector where
  detect_language_of : String → Option Language
  detect_multiple_languages_of : String → List DetectionResult
  compute_language_confidence_values : String → List (Language × Rat)
  compute_language_confidence : String → Language → Rat

/-- Modelled from the spec: the engine's parallel batch form applies the
single-text detection independently to each text, results assembled in input
order (spec, Concurrency and Resource Model). -/
def LanguageDetector.detect_languages_in_parallel_of
    (d : LanguageDetector) (texts : List String) : List (Option Language) :=
  texts.map d.detect_language_of

/-- Modelled from the spec: batch form of multi-language detection, one result
sequence per input text, input order preserved. -/
def LanguageDetector.detect_multiple_languages_in_parallel_of
    (d : LanguageDetector) (texts : List String) : List (List DetectionResult) :=
  texts.map d.detect_multiple_languages_of

/-- Modelled from the spec: batch form of confidence-value computation, input
order preserved. -/
def LanguageDetector.compute_language_confidence_values_in_parallel
    (d : LanguageDetector) (texts : List String) : List (List (Language × Rat)) :=
  texts.map d.compute_language_confidence_values

/-- Modelled from the spec: batch form of single-language confidence against
one fixed language, input order preserved. -/
def LanguageDetector.compute_language_confidence_in_parallel
    (d : LanguageDetector) (texts : List String) (language : Language) : List Rat :=
  texts.map (fun t => d.compute_language_confidence t language)

/-- A Ruby host value passed as the `language` argument (magnus `Value`); the
binding only ever calls `to_s` on it, so the model keeps the common receiver
kinds. -/
inductive RValue where
  | str (s : String)
  | sym (s : String)
  | int (n : Int)
deriving DecidableEq, Repr

/-- Ruby's `to_s` on the modelled host values: a string is itself, a symbol
yields its name, an integer its decimal form. -/
def RValue.to_s : RValue → String
  | .str s => s
  | .sym s => s
  | .int n => toString n

/-- The detector wrapper (`LanguageDetectorWrapper` in the source): an
immutable built engine detector. -/
structure LanguageDetectorWrapper where
  detector : LanguageDetector

/-- The builder wrapper (`LanguageDetectorBuilderWrapper` in the source): a
`RefCell<Option<LanguageDetectorBuilder>>` slot, i.e. an optional builder. -/
structure LanguageDetectorBuilderWrapper where
  slot : Option LanguageDetectorBuilder

/-- `LanguageDetectorBuilderWrapper::new`: a fresh wrapper with an occupied
slot. -/
def LanguageDetectorBuilderWrapper.new
    (builder : LanguageDetectorBuilder) : LanguageDetectorBuilderWrapper :=
  ⟨some builder⟩

/-- `take_builder`: `borrow_mut().take()` empties the slot and yields the
builder, or raises a RuntimeError (`StateError`) when the slot is already
empty. Returns the result together with the post-call wrapper state. -/
def take_builder (wrapper : LanguageDetectorBuilderWrapper) :
    Except RubyError LanguageDetectorBuilder × LanguageDetectorBuilderWrapper :=
  match wrapper.slot with
  | some b => (.ok b, ⟨none⟩)
  | none =>
      (.error (.stateError "language detector builder has already been consumed"),
       ⟨none⟩)

/-- `LanguageDetectorBuilderWrapper::with_minimum_relative_distance`: validate
the range first, then take the builder, apply the engine setter and restore the
slot. On success the source returns the receiver itself for chaining; the model
returns `Unit` plus the post-call state of that same instance. -/
def LanguageDetectorBuilderWrapper.with_minimum_relative_distance
    (rb_self : LanguageDetectorBuilderWrapper) (distance : Rat) :
    Except RubyError Unit × LanguageDetectorBuilderWrapper :=
  if ¬ (0 ≤ distance ∧ distance ≤ 1) then
    (.error (.invalidArgument "minimum relative distance must be between 0.0 and 1.0"),
     rb_self)
  else
    match take_builder rb_self with
    | (.ok builder, _) =>
        (.ok (), ⟨some (builder.with_minimum_relative_distance distance)⟩)
    | (.error e, after) => (.error e, after)

/-- `LanguageDetectorBuilderWrapper::with_preloaded_language_models`. -/
def LanguageDetectorBuilderWrapper.with_preloaded_language_models
    (rb_self : LanguageDetectorBuilderWrapper) :
    Except RubyError Unit × LanguageDetectorBuilderWrapper :=
  match take_builder rb_self with
  | (.ok builder, _) => (.ok (), ⟨some builder.with_preloaded_language_models⟩)
  | (.error e, after) => (.error e, after)

/-- `LanguageDetectorBuilderWrapper::with_low_accuracy_mode`. -/
def LanguageDetectorBuilderWrapper.with_low_accuracy_mode
    (rb_self : LanguageDetectorBuilderWrapper) :
    Except RubyError Unit × LanguageDetectorBuilderWrapper :=
  match take_builder rb_self with
  | (.ok builder, _) => (.ok (), ⟨some builder.with_low_accuracy_mode⟩)
  | (.error e, after) => (.error e, after)

/-- `LanguageDetectorBuilderWrapper::build`: take the builder (emptying the
slot for good) and delegate to the engine's `build`, modelled by the explicit
`engine_build` parameter since the engine itself is out of scope. -/
def LanguageDetectorBuilderWrapper.build
    (engine_build : LanguageDetectorBuilder → LanguageDetector)
    (rb_self : LanguageDetectorBuilderWrapper) :
    Except RubyError LanguageDetectorWrapper × LanguageDetectorBuilderWrapper :=
  match take_builder rb_self with
  | (.ok builder, after) => (.ok ⟨engine_build builder⟩, after)
  | (.error e, after) => (.error e, after)

/-- `LanguageDetectorWrapper::detect_language`. -/
def LanguageDetectorWrapper.detect_language
    (w : LanguageDetectorWrapper) (text : String) : Option String :=
  (w.detector.detect_language_of text).map Language.to_string

/-- `LanguageDetectorWrapper::detect_languages_in_parallel`. -/
def LanguageDetectorWrapper.detect_languages_in_parallel
    (w : LanguageDetectorWrapper) (texts : List String) : List (Option String) :=
  (w.detector.detect_languages_in_parallel_of texts).map
    (fun lang => lang.map Language.to_string)

/-- `detection_result_to_tuple`. -/
def detection_result_to_tuple (result : DetectionResult) : String × Nat × Nat :=
  (result.language.to_string, result.start_index, result.end_index)

/-- `LanguageDetectorWrapper::detect_multiple_languages`. -/
def LanguageDetectorWrapper.detect_multiple_languages
    (w : LanguageDetectorWrapper) (text : String) : List (String × Nat × Nat) :=
  (w.detector.detect_multiple_languages_of text).map detection_result_to_tuple

/-- `LanguageDetectorWrapper::detect_multiple_languages_in_parallel`. -/
def LanguageDetectorWrapper.detect_multiple_languages_in_parallel
    (w : LanguageDetectorWrapper) (texts : List String) :
    List (List (String × Nat × Nat)) :=
  (w.detector.detect_multiple_languages_in_parallel_of texts).map
    (fun results => results.map detection_result_to_tuple)

/-- `LanguageDetectorWrapper::compute_language_confidence_values`. -/
def LanguageDetectorWrapper.compute_language_confidence_values
    (w : LanguageDetectorWrapper) (text : String) : List (String × Rat) :=
  (w.detector.compute_language_confidence_values text).map
    (fun p => (p.1.to_string, p.2))

/-- `LanguageDetectorWrapper::compute_language_confidence_values_in_parallel`. -/
def LanguageDetectorWrapper.compute_language_confidence_values_in_parallel
    (w : LanguageDetectorWrapper) (texts : List String) :
    List (List (String × Rat)) :=
  (w.detector.compute_language_confidence_values_in_parallel texts).map
    (fun values => values.map (fun p => (p.1.to_string, p.2)))

/-- `parse_language_value`: convert the host value with `to_s`, then exact
lookup via `Language::from_str`; an unknown name raises ArgError. -/
def parse_language_value (value : RValue) : Except RubyError Language :=
  match Language.from_str value.to_s with
  | some language => .ok language
  | none => .error (.invalidArgument ("unknown language: " ++ value.to_s))

/-- `LanguageDetectorWrapper::compute_language_confidence`. -/
def LanguageDetectorWrapper.compute_language_confidence
    (w : LanguageDetectorWrapper) (text : String) (language_value : RValue) :
    Except RubyError Rat :=
  match parse_language_value language_value with
  | .ok language => .ok (w.detector.compute_language_confidence text language)
  | .error e => .error e

/-- `LanguageDetectorWrapper::compute_language_confidence_in_parallel`. -/
def LanguageDetectorWrapper.compute_language_confidence_in_parallel
    (w : LanguageDetectorWrapper) (texts : List String) (language_value : RValue) :
    Except RubyError (List Rat) :=
  match parse_language_value language_value with
  | .ok language =>
      .ok (w.detector.compute_language_confidence_in_parallel texts language)
  | .error e => .error e

/-- Rust's `Iterator::collect::<Result<Vec, Error>>`: run the per-element
conversion left to right, stopping at the first error. -/
def collectResults {α : Type} (f : String → Except RubyError α) :
    List String → Except RubyError (List α)
  | [] => .ok []
  | value :: rest =>
    match f value with
    | .ok a =>
      match collectResults f rest with
      | .ok tail => .ok (a :: tail)
      | .error e => .error e
    | .error e => .error e

/-- `parse_languages`: reject the empty list, then convert each name via
`Language::from_str`, failing on the first unknown one. -/
def parse_languages (values : List String) : Except RubyError (List Language) :=
  if values.isEmpty then
    .error (.invalidArgument "languages list must not be empty")
  else
    collectResults
      (fun value =>
        match Language.from_str value with
        | some language => .ok language
        | none => .error (.invalidArgument ("unknown language: " ++ value)))
      values

/-- `parse_iso_codes_639_1`. -/
def parse_iso_codes_639_1 (values : List String) :
    Except RubyError (List IsoCode639_1) :=
  if values.isEmpty then
    .error (.invalidArgument "ISO 639-1 codes list must not be empty")
  else
    collectResults
      (fun value =>
        match IsoCode639_1.from_str value with
        | some code => .ok code
        | none => .error (.invalidArgument ("unknown ISO 639-1 code: " ++ value)))
      values

/-- `parse_iso_codes_639_3`. -/
def parse_iso_codes_639_3 (values : List String) :
    Except RubyError (List IsoCode639_3) :=
  if values.isEmpty then
    .error (.invalidArgument "ISO 639-3 codes list must not be empty")
  else
    collectResults
      (fun value =>
        match IsoCode639_3.from_str value with
        | some code => .ok code
        | none => .error (.invalidArgument ("unknown ISO 639-3 code: " ++ value)))
      values

/-- `builder_from_all_languages`. -/
def builder_from_all_languages : LanguageDetectorBuilderWrapper :=
  LanguageDetectorBuilderWrapper.new LanguageDetectorBuilder.from_all_languages

/-- `builder_from_languages`. -/
def builder_from_languages (languages : List String) :
    Except RubyError LanguageDetectorBuilderWrapper :=
  match parse_languages languages with
  | .ok languages =>
      .ok (LanguageDetectorBuilderWrapper.new
        (LanguageDetectorBuilder.from_languages languages))
  | .error e => .error e

/-- `builder_from_all_languages_without`. -/
def builder_from_all_languages_without (languages : List String) :
    Except RubyError LanguageDetectorBuilderWrapper :=
  match parse_languages languages with
  | .ok languages =>
      .ok (LanguageDetectorBuilderWrapper.new
        (LanguageDetectorBuilder.from_all_languages_without languages))
  | .error e => .error e

/-- `builder_from_iso_codes_639_1`. -/
def builder_from_iso_codes_639_1 (iso_codes : List String) :
    Except RubyError LanguageDetectorBuilderWrapper :=
  match parse_iso_codes_639_1 iso_codes with
  | .ok iso_codes =>
      .ok (LanguageDetectorBuilderWrapper.new
        (LanguageDetectorBuilder.from_iso_codes_639_1 iso_codes))
  | .error e => .error e

/-- `builder_from_iso_codes_639_3`. -/
def builder_from_iso_codes_639_3 (iso_codes : List String) :
    Except RubyError LanguageDetectorBuilderWrapper :=
  match parse_iso_codes_639_3 iso_codes with
  | .ok iso_codes =>
      .ok (LanguageDetectorBuilderWrapper.new
        (LanguageDetectorBuilder.from_iso_codes_639_3 iso_codes))
  | .error e => .error e

/-- A concrete engine used to instantiate witness statements: every behaviour
function returns the empty or absent answer. -/
def trivialDetector : LanguageDetector :=
  { detect_language_of := fun _ => none
    detect_multiple_languages_of := fun _ => []
    compute_language_confidence_values := fun _ => []
    compute_language_confidence := fun _ _ => 0 }

/-- A concrete engine `build` oracle for witness statements. -/
def trivialEngineBuild : LanguageDetectorBuilder → LanguageDetector :=
  fun _ => trivialDetector

/-- Helper: when every element converts successfully, `collectResults` returns
the image list, in input order and without deduplication. -/
theorem collectResults_ok {α : Type} (f : String → Except RubyError α)
    (g : String → α) (values : List String)
    (h : ∀ u ∈ values, f u = .ok (g u)) :
    collectResults f values = .ok (values.map g) := by
  induction values with
  | nil => rfl
  | cons v rest ih =>
    have hv : f v = .ok (g v) := h v (by simp)
    have hrest := ih (fun u hu => h u (by simp [hu]))
    simp [collectResults, hv, hrest]

/-- Helper: `collectResults` propagates the error of the first failing element
when everything before it succeeds. -/
theorem collectResults_first_error {α : Type} (f : String → Except RubyError α)
    (pre post : List String) (v : String) (e : RubyError)
    (hpre : ∀ u ∈ pre, ∃ a, f u = .ok a) (hv : f v = .error e) :
    collectResults f (pre ++ v :: post) = .error e := by
  induction pre with
  | nil => simp [collectResults, hv]
  | cons u rest ih =>
    obtain ⟨a, ha⟩ := hpre u (by simp)
    have hrest := ih (fun x hx => hpre x (by simp [hx]))
    simp [collectResults, ha, hrest]

/-- C6: every list-taking builder factory (`from_languages`,
`from_all_languages_without`, `from_iso_codes_639_1`, `from_iso_codes_639_3`)
rejects the empty list with `InvalidArgument`, and no builder is created. -/
theorem c6_empty_list_factories_fail :
    builder_from_languages []
        = .error (.invalidArgument "languages list must not be empty")
  ∧ builder_from_all_languages_without []
        = .error (.invalidArgument "languages list must not be empty")
  ∧ builder_from_iso_codes_639_1 []
        = .error (.invalidArgument "ISO 639-1 codes list must not be empty")
  ∧ builder_from_iso_codes_639_3 []
        = .error (.invalidArgument "ISO 639-3 codes list must not be empty") :=
  ⟨rfl, rfl, rfl, rfl⟩

/-- C3: on a builder in `Configured` state, `with_minimum_relative_distance`
fails with `InvalidArgument` and leaves the state untouched when the distance
is outside the closed interval from 0 to 1; when it is inside, the call
succeeds, stores the distance replacing any prior value, and the same instance
is still `Configured` for chaining. -/
theorem c3_with_minimum_relative_distance
    (b : LanguageDetectorBuilder) (d : Rat) :
    (¬ (0 ≤ d ∧ d ≤ 1) →
      LanguageDetectorBuilderWrapper.with_minimum_relative_distance ⟨some b⟩ d
        = (.error (.invalidArgument
              "minimum relative distance must be between 0.0 and 1.0"),
           ⟨some b⟩))
  ∧ ((0 ≤ d ∧ d ≤ 1) →
      LanguageDetectorBuilderWrapper.with_minimum_relative_distance ⟨some b⟩ d
        = (.ok (), ⟨some { b with minimumRelativeDistance := d }⟩)) := by
  constructor
  · intro h
    unfold LanguageDetectorBuilderWrapper.with_minimum_relative_distance
    rw [if_pos h]
  · intro h
    unfold LanguageDetectorBuilderWrapper.with_minimum_relative_distance
    rw [if_neg (not_not_intro h)]
    rfl

/-- C3 witness: concrete evaluations at 2 (rejected, state kept) and at one
half (accepted and stored). -/
theorem c3_witness :
    LanguageDetectorBuilderWrapper.with_minimum_relative_distance
        ⟨some LanguageDetectorBuilder.from_all_languages⟩ 2
      = (.error (.invalidArgument
            "minimum relative distance must be between 0.0 and 1.0"),
         ⟨some LanguageDetectorBuilder.from_all_languages⟩)
  ∧ LanguageDetectorBuilderWrapper.with_minimum_relative_distance
        ⟨some LanguageDetectorBuilder.from_all_languages⟩ (1 / 2)
      = (.ok (), ⟨some { LanguageDetectorBuilder.from_all_languages with
                           minimumRelativeDistance := 1 / 2 }⟩) :=
  ⟨(c3_with_minimum_relative_distance LanguageDetectorBuilder.from_all_languages 2).1
      (by norm_num),
   (c3_with_minimum_relative_distance LanguageDetectorBuilder.from_all_languages
        (1 / 2)).2 (by norm_num)⟩

/-- C8: when `with_minimum_relative_distance` rejects an out-of-range distance,
the wrapper is returned exactly as it was — the slot still holds the same
configuration, and the engine builder inside it is never touched. -/
theorem c8_invalid_distance_leaves_builder_unchanged
    (w : LanguageDetectorBuilderWrapper) (d : Rat)
    (h : ¬ (0 ≤ d ∧ d ≤ 1)) :
    LanguageDetectorBuilderWrapper.with_minimum_relative_distance w d
      = (.error (.invalidArgument
            "minimum relative distance must be between 0.0 and 1.0"), w) := by
  unfold LanguageDetectorBuilderWrapper.with_minimum_relative_distance
  rw [if_pos h]

/-- C8 witness: a configured builder hit with distance 3/2 keeps its stored
configuration. -/
theorem c8_witness :
    LanguageDetectorBuilderWrapper.with_minimum_relative_distance
        ⟨some (LanguageDetectorBuilder.from_languages [⟨"English"⟩])⟩ (3 / 2)
      = (.error (.invalidArgument
            "minimum relative distance must be between 0.0 and 1.0"),
         ⟨some (LanguageDetectorBuilder.from_languages [⟨"English"⟩])⟩) :=
  c8_invalid_distance_leaves_builder_unchanged
    ⟨some (LanguageDetectorBuilder.from_languages [⟨"English"⟩])⟩ (3 / 2)
    (by norm_num)

/-- C1 counterexample: on a builder already consumed by `build`, calling
`with_minimum_relative_distance` with the out-of-range argument 2 fails with
`InvalidArgument`, not `StateError`, because the range check runs before the
consumed-slot check — refuting the claim that every subsequent operation with
any argument fails with `StateError`. -/
theorem c1_counterexample :
    (LanguageDetectorBuilderWrapper.with_minimum_relative_distance
        (LanguageDetectorBuilderWrapper.build trivialEngineBuild
          builder_from_all_languages).2 2).1
      = .error (.invalidArgument
          "minimum relative distance must be between 0.0 and 1.0")
  ∧ ∀ m : String,
      (LanguageDetectorBuilderWrapper.with_minimum_relative_distance
          (LanguageDetectorBuilderWrapper.build trivialEngineBuild
            builder_from_all_languages).2 2).1
        ≠ .error (.stateError m) := by
  have h1 : (LanguageDetectorBuilderWrapper.with_minimum_relative_distance
      (LanguageDetectorBuilderWrapper.build trivialEngineBuild
        builder_from_all_languages).2 2).1
      = Except.error (RubyError.invalidArgument
          "minimum relative distance must be between 0.0 and 1.0") := by
    unfold LanguageDetectorBuilderWrapper.with_minimum_relative_distance
    rw [if_pos (by norm_num : ¬ ((0 : Rat) ≤ 2 ∧ (2 : Rat) ≤ 1))]
  refine ⟨h1, fun m hm => ?_⟩
  rw [h1] at hm
  simp at hm

/-- C1 as amended: the first `build` on a configured builder succeeds and
returns a detector while emptying the slot; afterwards every operation on the
same instance fails rather than silently reusing stale state — `build` and the
setters fail with `StateError`, except that `with_minimum_relative_distance`
with an argument outside the interval from 0 to 1 fails with `InvalidArgument`
because argument validation precedes the consumed-state check. -/
theorem c1_amended_consume_once
    (engine_build : LanguageDetectorBuilder → LanguageDetector)
    (b : LanguageDetectorBuilder) (d : Rat) :
    LanguageDetectorBuilderWrapper.build engine_build ⟨some b⟩
        = (.ok ⟨engine_build b⟩, ⟨none⟩)
  ∧ LanguageDetectorBuilderWrapper.build engine_build ⟨none⟩
        = (.error (.stateError
            "language detector builder has already been consumed"), ⟨none⟩)
  ∧ LanguageDetectorBuilderWrapper.with_preloaded_language_models ⟨none⟩
        = (.error (.stateError
            "language detector builder has already been consumed"), ⟨none⟩)
  ∧ LanguageDetectorBuilderWrapper.with_low_accuracy_mode ⟨none⟩
        = (.error (.stateError
            "language detector builder has already been consumed"), ⟨none⟩)
  ∧ ((0 ≤ d ∧ d ≤ 1) →
      LanguageDetectorBuilderWrapper.with_minimum_relative_distance ⟨none⟩ d
        = (.error (.stateError
            "language detector builder has already been consumed"), ⟨none⟩))
  ∧ (¬ (0 ≤ d ∧ d ≤ 1) →
      LanguageDetectorBuilderWrapper.with_minimum_relative_distance ⟨none⟩ d
        = (.error (.invalidArgument
            "minimum relative distance must be between 0.0 and 1.0"), ⟨none⟩)) := by
  refine ⟨rfl, rfl, rfl, rfl, fun h => ?_, fun h => ?_⟩
  · unfold LanguageDetectorBuilderWrapper.with_minimum_relative_distance
    rw [if_neg (not_not_intro h)]
    rfl
  · unfold LanguageDetectorBuilderWrapper.with_minimum_relative_distance
    rw [if_pos h]

/-- C1 amended witness: the consumed-state branch of the setter evaluated at
the in-range distance one half. -/
theorem c1_amended_witness :
    LanguageDetectorBuilderWrapper.with_minimum_relative_distance ⟨none⟩
        ((1 : Rat) / 2)
      = (.error (.stateError
          "language detector builder has already been consumed"), ⟨none⟩) :=
  (c1_amended_consume_once trivialEngineBuild
      LanguageDetectorBuilder.from_all_languages (1 / 2)).2.2.2.2.1 (by norm_num)

/-- C2: for every built detector and every list of texts, the parallel batch
detection has the same length as the input and its element at every position
equals `detect_language` of the text at that position (input order preserved).
The engine's parallel operation is modelled, per the spec's interface boundary,
as the independent elementwise application of its single-text operation. -/
theorem c2_parallel_matches_single
    (w : LanguageDetectorWrapper) (texts : List String) :
    (w.detect_languages_in_parallel texts).length = texts.length
  ∧ ∀ i : Nat,
      (w.detect_languages_in_parallel texts)[i]?
        = (texts[i]?).map w.detect_language := by
  constructor
  · simp [LanguageDetectorWrapper.detect_languages_in_parallel,
      LanguageDetector.detect_languages_in_parallel_of]
  · intro i
    cases h : texts[i]? with
    | none =>
        simp [LanguageDetectorWrapper.detect_languages_in_parallel,
          LanguageDetector.detect_languages_in_parallel_of, List.getElem?_map, h]
    | some t =>
        simp [LanguageDetectorWrapper.detect_languages_in_parallel,
          LanguageDetector.detect_languages_in_parallel_of,
          LanguageDetectorWrapper.detect_language, List.getElem?_map, h]

/-- C10: the six infallible facade operations are total and report inability to
determine a language as an absent value or an empty sequence, never as an
error: an engine `none` or empty answer maps to `none` or the empty list, the
batch forms always return one entry per input text, and the empty batch yields
the empty result list. -/
theorem c10_infallible_operations
    (w : LanguageDetectorWrapper) (t : String) (ts : List String) :
    (w.detector.detect_language_of t = none → w.detect_language t = none)
  ∧ (w.detector.detect_multiple_languages_of t = [] →
      w.detect_multiple_languages t = [])
  ∧ (w.detector.compute_language_confidence_values t = [] →
      w.compute_language_confidence_values t = [])
  ∧ (w.detect_languages_in_parallel ts).length = ts.length
  ∧ (w.detect_multiple_languages_in_parallel ts).length = ts.length
  ∧ (w.compute_language_confidence_values_in_parallel ts).length = ts.length
  ∧ w.detect_languages_in_parallel [] = []
  ∧ w.detect_multiple_languages_in_parallel [] = []
  ∧ w.compute_language_confidence_values_in_parallel [] = [] := by
  refine ⟨fun h => ?_, fun h => ?_, fun h => ?_, ?_, ?_, ?_, rfl, rfl, rfl⟩
  · simp [LanguageDetectorWrapper.detect_language, h]
  · simp [LanguageDetectorWrapper.detect_multiple_languages, h]
  · simp [LanguageDetectorWrapper.compute_language_confidence_values, h]
  · simp [LanguageDetectorWrapper.detect_languages_in_parallel,
      LanguageDetector.detect_languages_in_parallel_of]
  · simp [LanguageDetectorWrapper.detect_multiple_languages_in_parallel,
      LanguageDetector.detect_multiple_languages_in_parallel_of]
  · simp [LanguageDetectorWrapper.compute_language_confidence_values_in_parallel,
      LanguageDetector.compute_language_confidence_values_in_parallel]

/-- C10 witness: the trivial engine detector evaluated on a concrete text and
batch. -/
theorem c10_witness :
    (LanguageDetectorWrapper.mk trivialDetector).detect_language "hello" = none
  ∧ (LanguageDetectorWrapper.mk trivialDetector).detect_multiple_languages "" = []
  ∧ (LanguageDetectorWrapper.mk
        trivialDetector).compute_language_confidence_values "" = []
  ∧ ((LanguageDetectorWrapper.mk trivialDetector).detect_languages_in_parallel
        ["a", "b"]).length = 2 := by
  have h := c10_infallible_operations (LanguageDetectorWrapper.mk trivialDetector)
    "hello" ["a", "b"]
  have h2 := c10_infallible_operations (LanguageDetectorWrapper.mk trivialDetector)
    "" ["a", "b"]
  exact ⟨h.1 rfl, h2.2.1 rfl, h2.2.2.1 rfl, h.2.2.2.1⟩

/-- C9: the language argument is converted through the host value's `to_s`
before lookup, so parsing a value is the same as parsing its string form; in
particular a symbol whose name is a canonical language name is accepted, and
the `InvalidArgument` decision is taken on the string form. -/
theorem c9_language_argument_to_s
    (w : LanguageDetectorWrapper) (t : String) (ts : List String) (s : String) :
    (∀ v : RValue, parse_language_value v = parse_language_value (.str v.to_s))
  ∧ (s ∈ languageNames →
      w.compute_language_confidence t (.sym s)
        = .ok (w.detector.compute_language_confidence t ⟨s⟩))
  ∧ (s ∈ languageNames →
      w.compute_language_confidence_in_parallel ts (.sym s)
        = .ok (ts.map (fun x => w.detector.compute_language_confidence x ⟨s⟩)))
  ∧ (s ∉ languageNames →
      w.compute_language_confidence t (.sym s)
        = .error (.invalidArgument ("unknown language: " ++ s))) := by
  refine ⟨fun v => rfl, fun h => ?_, fun h => ?_, fun h => ?_⟩
  · simp [LanguageDetectorWrapper.compute_language_confidence,
      parse_language_value, Language.from_str, RValue.to_s, h]
  · simp [LanguageDetectorWrapper.compute_language_confidence_in_parallel,
      LanguageDetector.compute_language_confidence_in_parallel,
      parse_language_value, Language.from_str, RValue.to_s, h]
  · simp [LanguageDetectorWrapper.compute_language_confidence,
      parse_language_value, Language.from_str, RValue.to_s, h]

/-- C9 witness: the symbol `:English` is accepted (equal in effect to the
string form) and an unknown symbol is rejected on its string form. -/
theorem c9_witness :
    (LanguageDetectorWrapper.mk trivialDetector).compute_language_confidence
        "hello" (.sym "English")
      = .ok (trivialDetector.compute_language_confidence "hello" ⟨"English"⟩)
  ∧ (LanguageDetectorWrapper.mk trivialDetector).compute_language_confidence
        "hello" (.sym "Klingon")
      = .error (.invalidArgument ("unknown language: " ++ "Klingon")) :=
  ⟨(c9_language_argument_to_s (LanguageDetectorWrapper.mk trivialDetector)
      "hello" [] "English").2.1 (by decide),
   (c9_language_argument_to_s (LanguageDetectorWrapper.mk trivialDetector)
      "hello" [] "Klingon").2.2.2 (by decide)⟩

/-- C7: `compute_language_confidence` and its batch form fail with
`InvalidArgument` exactly when the language argument does not parse to a
recognized identifier; when it parses, they return the engine's score (one per
text in the batch form), which lies inside the closed unit interval by the
engine's confidence contract (taken as a hypothesis on the modelled engine). -/
theorem c7_confidence_error_iff_unknown_language
    (w : LanguageDetectorWrapper) (t : String) (ts : List String) (v : RValue)
    (hrange : ∀ x l, 0 ≤ w.detector.compute_language_confidence x l
        ∧ w.detector.compute_language_confidence x l ≤ 1) :
    (Language.from_str v.to_s = none →
        w.compute_language_confidence t v
            = .error (.invalidArgument ("unknown language: " ++ v.to_s))
      ∧ w.compute_language_confidence_in_parallel ts v
            = .error (.invalidArgument ("unknown language: " ++ v.to_s)))
  ∧ (∀ l, Language.from_str v.to_s = some l →
      (w.compute_language_confidence t v
            = .ok (w.detector.compute_language_confidence t l)
        ∧ 0 ≤ w.detector.compute_language_confidence t l
        ∧ w.detector.compute_language_confidence t l ≤ 1)
      ∧ ∃ cs, w.compute_language_confidence_in_parallel ts v = .ok cs
          ∧ cs.length = ts.length ∧ ∀ c ∈ cs, 0 ≤ c ∧ c ≤ 1) := by
  constructor
  · intro h
    constructor
    · simp [LanguageDetectorWrapper.compute_language_confidence,
        parse_language_value, h]
    · simp [LanguageDetectorWrapper.compute_language_confidence_in_parallel,
        parse_language_value, h]
  · intro l h
    refine ⟨⟨?_, hrange t l⟩,
      ts.map (fun x => w.detector.compute_language_confidence x l), ?_, ?_, ?_⟩
    · simp [LanguageDetectorWrapper.compute_language_confidence,
        parse_language_value, h]
    · simp [LanguageDetectorWrapper.compute_language_confidence_in_parallel,
        LanguageDetector.compute_language_confidence_in_parallel,
        parse_language_value, h]
    · simp
    · intro c hc
      obtain ⟨x, _, rfl⟩ := List.mem_map.mp hc
      exact hrange x l

/-- C7 witness: the trivial engine (confidence constantly 0, inside the unit
interval) with a recognized and an unrecognized language argument. -/
theorem c7_witness :
    (LanguageDetectorWrapper.mk trivialDetector).compute_language_confidence
        "hello" (.str "Klingon")
      = .error (.invalidArgument ("unknown language: " ++ "Klingon"))
  ∧ (LanguageDetectorWrapper.mk trivialDetector).compute_language_confidence
        "hello" (.str "French")
      = .ok (trivialDetector.compute_language_confidence "hello" ⟨"French"⟩) :=
  ⟨((c7_confidence_error_iff_unknown_language
        (LanguageDetectorWrapper.mk trivialDetector) "hello" [] (.str "Klingon")
        (fun _ _ => ⟨le_refl 0, by norm_num [trivialDetector]⟩)).1 (by decide)).1,
   (((c7_confidence_error_iff_unknown_language
        (LanguageDetectorWrapper.mk trivialDetector) "hello" [] (.str "French")
        (fun _ _ => ⟨le_refl 0, by norm_num [trivialDetector]⟩)).2 ⟨"French"⟩ (by decide)).1).1⟩

/-- C5: on a non-empty identifier list the parser either returns the
corresponding canonical values in input order with no deduplication (every
entry recognized — witnessed by mapping each result back to its identifier), or
fails with `InvalidArgument` naming the first unrecognized token, performing no
partial work; stated for `parse_languages` and for `parse_iso_codes_639_1`. -/
theorem c5_parser_all_or_first_error
    (values pre post : List String) (v : String) :
    (values ≠ [] → (∀ u ∈ values, (Language.from_str u).isSome) →
      ∃ ls, parse_languages values = .ok ls
        ∧ ls.map Language.to_string = values)
  ∧ (values = pre ++ v :: post →
      (∀ u ∈ pre, (Language.from_str u).isSome) →
      Language.from_str v = none →
      parse_languages values
        = .error (.invalidArgument ("unknown language: " ++ v)))
  ∧ (values ≠ [] → (∀ u ∈ values, (IsoCode639_1.from_str u).isSome) →
      ∃ cs, parse_iso_codes_639_1 values = .ok cs
        ∧ cs.map IsoCode639_1.code = values)
  ∧ (values = pre ++ v :: post →
      (∀ u ∈ pre, (IsoCode639_1.from_str u).isSome) →
      IsoCode639_1.from_str v = none →
      parse_iso_codes_639_1 values
        = .error (.invalidArgument ("unknown ISO 639-1 code: " ++ v))) := by
  refine ⟨fun hne hall => ?_, fun heq hpre hv => ?_,
          fun hne hall => ?_, fun heq hpre hv => ?_⟩
  · refine ⟨values.map Language.mk, ?_, ?_⟩
    · unfold parse_languages
      rw [if_neg (by simpa [List.isEmpty_iff] using hne)]
      refine collectResults_ok _ Language.mk values (fun u hu => ?_)
      have h1 := hall u hu
      have hmem : u ∈ languageNames := by
        by_contra hc
        rw [Language.from_str, if_neg hc] at h1
        simp at h1
      simp [Language.from_str, hmem]
    · rw [List.map_map, show Language.to_string ∘ Language.mk = id from rfl,
        List.map_id]
  · subst heq
    unfold parse_languages
    rw [if_neg (by simp)]
    refine collectResults_first_error _ pre post v _ (fun u hu => ?_) ?_
    · have := hpre u hu
      rcases hl : Language.from_str u with _ | l
      · rw [hl] at this
        simp at this
      · exact ⟨l, by simp [hl]⟩
    · simp [hv]
  · refine ⟨values.map IsoCode639_1.mk, ?_, ?_⟩
    · unfold parse_iso_codes_639_1
      rw [if_neg (by simpa [List.isEmpty_iff] using hne)]
      refine collectResults_ok _ IsoCode639_1.mk values (fun u hu => ?_)
      have h1 := hall u hu
      have hmem : u ∈ iso6391Table.map Prod.fst := by
        by_contra hc
        rw [IsoCode639_1.from_str, if_neg hc] at h1
        simp at h1
      simp [IsoCode639_1.from_str, hmem]
    · rw [List.map_map, show IsoCode639_1.code ∘ IsoCode639_1.mk = id from rfl,
        List.map_id]
  · subst heq
    unfold parse_iso_codes_639_1
    rw [if_neg (by simp)]
    refine collectResults_first_error _ pre post v _ (fun u hu => ?_) ?_
    · have := hpre u hu
      rcases hl : IsoCode639_1.from_str u with _ | c
      · rw [hl] at this
        simp at this
      · exact ⟨c, by simp [hl]⟩
    · simp [hv]

/-- C5 witness: a fully recognized list round-trips in order, and a list whose
second entry is unknown fails naming exactly that entry. -/
theorem c5_witness :
    (∃ ls, parse_languages ["English", "German"] = .ok ls
        ∧ ls.map Language.to_string = ["English", "German"])
  ∧ parse_languages ["English", "Klingon", "German"]
        = .error (.invalidArgument ("unknown language: " ++ "Klingon")) :=
  ⟨(c5_parser_all_or_first_error ["English", "German"] [] [] "x").1
      (by decide) (by decide),
   (c5_parser_all_or_first_error ["English", "Klingon", "German"]
      ["English"] ["German"] "Klingon").2.1 rfl (by decide) (by decide)⟩

end LinguaRsRb
